import Mathlib

/-!
Shallow embedding of the Psiphon rotate-safe-writer repository: a writer
over a single named file that detects external rotation (rename, delete,
recreate) before each write and reopens the path.  Two implementation
variants are present in the sources: `src/rotate.go` compares full
`os.FileInfo` values via `os.SameFile` (namespace `SameFileW` below), and
`src/unnamed/part_000` compares raw inode numbers (namespace `InodeW`).
The filesystem around the one target path is modelled explicitly; each
operating-system call is a pure function of the filesystem state, and a
call sequence threads that state, with external rotation events modelled
as arbitrary state changes between the writer's calls.
-/

deriving instance DecidableEq for Except

namespace Rotate

/-- Errors returned by the modelled operating-system calls, mirroring the
Go error values the source distinguishes: `os.IsNotExist` recognises
`notExist`; permission failures; `os.ErrInvalid` from a method call on a
nil `os.File`; `os.ErrClosed` from writing to or closing an
already-closed file. -/
inductive GoError where
  | notExist
  | permission
  | errInvalid
  | errClosed
  deriving DecidableEq, Repr

/-- Identity of a file object: the device and inode pair that
`os.SameFile` compares on POSIX systems. -/
structure FileId where
  dev : Nat
  ino : Nat
  deriving DecidableEq, Repr

/-- A file object on disk: its identity, whether its permission bits
allow opening it for write, and its byte content. -/
structure FsFile where
  fid : FileId
  writable : Bool
  content : List Nat
  deriving DecidableEq, Repr

/-- State of the filesystem around the single target path: the file at
the path (if any), file objects renamed or unlinked away from the path
but possibly still open, whether a stat of the path fails with an error
other than notExist (for example the directory became unsearchable),
whether opening the path fails outright, the device of the directory,
and a fresh-inode counter used for files created at the path. -/
structure Fs where
  atPath : Option FsFile
  orphans : List FsFile
  statBlocked : Bool
  openBlocked : Bool
  dev : Nat
  nextIno : Nat
  deriving DecidableEq, Repr

/-- Result of `os.Stat(name)`: the identity of the file at the path, or
an error, `notExist` exactly when no file is at the path. -/
def Fs.stat (fs : Fs) : Except GoError FileId :=
  if fs.statBlocked then .error .permission
  else
    match fs.atPath with
    | none => .error .notExist
    | some f => .ok f.fid

/-- An `os.File` handle: the identity of the file object it refers to
(stable across renames of that object) and whether it is still open. -/
structure OsFile where
  fid : FileId
  isOpen : Bool
  deriving DecidableEq, Repr

/-- Whether a numeric mode grants owner write permission (bit 0o200),
which decides whether a file the writer itself creates can later be
reopened for writing. -/
def modeWritable (mode : Nat) : Bool := Nat.testBit mode 7

/-- Result of `os.OpenFile(name, O_WRONLY|O_APPEND|O_CREATE, mode)`:
open the file at the path for append-write, creating it empty with the
given mode and a fresh inode on the directory device when it is absent.
Returns the new handle and the updated filesystem.  The creating open
itself always yields a writable descriptor. -/
def Fs.openAppendCreate (fs : Fs) (mode : Nat) : Except GoError (OsFile × Fs) :=
  if fs.openBlocked then .error .permission
  else
    match fs.atPath with
    | some f => if f.writable then .ok (⟨f.fid, true⟩, fs) else .error .permission
    | none =>
      let fid : FileId := ⟨fs.dev, fs.nextIno⟩
      .ok (⟨fid, true⟩,
        { fs with atPath := some ⟨fid, modeWritable mode, []⟩, nextIno := fs.nextIno + 1 })

/-- Append bytes to each file of a list whose identity matches. -/
def appendMatching (fid : FileId) (p : List Nat) (l : List FsFile) : List FsFile :=
  l.map (fun g => if g.fid = fid then { g with content := g.content ++ p } else g)

/-- Append bytes to the file object with the given identity, wherever it
lives: at the path, or among the renamed-away objects. -/
def Fs.appendTo (fs : Fs) (fid : FileId) (p : List Nat) : Fs :=
  match fs.atPath with
  | some f =>
    if f.fid = fid then
      { fs with atPath := some { f with content := f.content ++ p } }
    else
      { fs with orphans := appendMatching fid p fs.orphans }
  | none =>
    { fs with orphans := appendMatching fid p fs.orphans }

/-- Method `Write` of `os.File` called through a possibly nil pointer: a
nil pointer returns `os.ErrInvalid`, a closed handle `os.ErrClosed`, and
an open handle appends the bytes to its file object and reports the full
byte count. -/
def osWrite (fs : Fs) (h : Option OsFile) (p : List Nat) : (Nat × Option GoError) × Fs :=
  match h with
  | none => ((0, some .errInvalid), fs)
  | some h =>
    if h.isOpen then ((p.length, none), fs.appendTo h.fid p)
    else ((0, some .errClosed), fs)

/-- Method `Close` of `os.File` called through a possibly nil pointer:
nil gives `os.ErrInvalid`, an already-closed handle `os.ErrClosed`, and
otherwise the handle is marked closed. -/
def osClose : Option OsFile → Option GoError × Option OsFile
  | none => (some .errInvalid, none)
  | some h =>
    if h.isOpen then (none, some { h with isOpen := false })
    else (some .errClosed, some h)

end Rotate

namespace Rotate.SameFileW

/-- State of the `RotatableFileWriter` of `src/rotate.go` (lines 15 to
21): the `file` field (nil or an `os.File` handle), the `fileInfo` field
(a nil pointer, or a pointer to an `os.FileInfo` interface value that is
itself either nil or carries a file identity), and the numeric `mode`.
The bound `name` is the single target path of the filesystem model. -/
structure RotatableFileWriter where
  file : Option Rotate.OsFile
  fileInfo : Option (Option Rotate.FileId)
  mode : Nat
  deriving DecidableEq, Repr

/-- Function `os.SameFile` applied to two `os.FileInfo` interface
values: false whenever either value is nil, identity equality
otherwise. -/
def sameFile : Option Rotate.FileId → Option Rotate.FileId → Bool
  | some a, some b => a == b
  | _, _ => false

/-- Shared tail of `reopen` in `src/rotate.go` (lines 40 to 54): open
the path (always passing `O_CREATE`), store the handle, stat the path,
store the identity.  An error from the open or from the stat is
returned as is; in particular a stat failure leaves the just-opened
handle stored with no identity. -/
def openAndStat (w : RotatableFileWriter) (fs : Rotate.Fs) :
    Option Rotate.GoError × RotatableFileWriter × Rotate.Fs :=
  match fs.openAppendCreate w.mode with
  | .error e => (some e, w, fs)
  | .ok hfs =>
    match hfs.2.stat with
    | .error e => (some e, { w with file := some hfs.1 }, hfs.2)
    | .ok fid => (none, { w with file := some hfs.1, fileInfo := some (some fid) }, hfs.2)

/-- Method `reopen` of `src/rotate.go` (lines 33 to 55): when a handle
is present, close it and clear both the handle and the identity, then
open and stat the path. -/
def RotatableFileWriter.reopen (w : RotatableFileWriter) (fs : Rotate.Fs) :
    Option Rotate.GoError × RotatableFileWriter × Rotate.Fs :=
  match w.file with
  | some _ => openAndStat { w with file := none, fileInfo := none } fs
  | none => openAndStat w fs

/-- Method `Close` of `src/rotate.go` (lines 24 to 30): closes the
underlying file; neither `file` nor `fileInfo` is cleared. -/
def RotatableFileWriter.Close (w : RotatableFileWriter) :
    Option Rotate.GoError × RotatableFileWriter :=
  ((Rotate.osClose w.file).1, { w with file := (Rotate.osClose w.file).2 })

/-- Outcome of a call that may fault at run time (the Go panic from
dereferencing a nil `*os.FileInfo` pointer). -/
inductive Outcome (α : Type) where
  | panicked
  | ok (a : α)
  deriving DecidableEq, Repr

/-- Tail of method `Write` of `src/rotate.go` (lines 82 to 93), reached
when the stat succeeded or failed with notExist, taking the queried
`os.FileInfo` interface value (nil when the stat failed): dereference
the stored `fileInfo` pointer (a runtime fault when the pointer is nil)
and compare via `os.SameFile`; on mismatch run `reopen`, propagating its
error, then overwrite `fileInfo` with the identity queried at the start
of the call; finally write through the handle. -/
def writeTail (w : RotatableFileWriter) (fs : Rotate.Fs) (p : List Nat)
    (currentFileInfo : Option Rotate.FileId) :
    Outcome ((Nat × Option Rotate.GoError) × RotatableFileWriter × Rotate.Fs) :=
  match w.fileInfo with
  | none => .panicked
  | some stored =>
    if sameFile stored currentFileInfo then
      .ok ((Rotate.osWrite fs w.file p).1, w, (Rotate.osWrite fs w.file p).2)
    else
      match (w.reopen fs).1 with
      | some e => .ok ((0, some e), (w.reopen fs).2.1, (w.reopen fs).2.2)
      | none =>
        .ok ((Rotate.osWrite (w.reopen fs).2.2 (w.reopen fs).2.1.file p).1,
          { (w.reopen fs).2.1 with fileInfo := some currentFileInfo },
          (Rotate.osWrite (w.reopen fs).2.2 (w.reopen fs).2.1.file p).2)

/-- Method `Write` of `src/rotate.go` (lines 68 to 94): stat the path; a
stat error other than notExist is returned immediately; otherwise the
call proceeds to the identity comparison with the queried value (nil on
a notExist failure, which makes the `os.SameFile` check fail, the
behaviour the source comments call desired). -/
def RotatableFileWriter.Write (w : RotatableFileWriter) (fs : Rotate.Fs) (p : List Nat) :
    Outcome ((Nat × Option Rotate.GoError) × RotatableFileWriter × Rotate.Fs) :=
  match fs.stat with
  | .error e => if e = .notExist then writeTail w fs p none else .ok ((0, some e), w, fs)
  | .ok fid => writeTail w fs p (some fid)

/-- Function `NewRotatableFileWriter` of `src/rotate.go` (lines 97 to
111): build the zero writer and run `reopen`; on error no writer is
produced. -/
def NewRotatableFileWriter (mode : Nat) (fs : Rotate.Fs) :
    Option (RotatableFileWriter × Rotate.Fs) :=
  match (RotatableFileWriter.reopen ⟨none, none, mode⟩ fs).1 with
  | none => some ((RotatableFileWriter.reopen ⟨none, none, mode⟩ fs).2.1,
      (RotatableFileWriter.reopen ⟨none, none, mode⟩ fs).2.2)
  | some _ => none

/-- Consistency invariant claimed by the spec for handle and identity:
both absent, or both present with the stored identity equal to the
identity of the file the handle points to. -/
def consistentB (w : RotatableFileWriter) : Bool :=
  match w.file, w.fileInfo with
  | none, none => true
  | some h, some (some fid) => fid == h.fid
  | _, _ => false

end Rotate.SameFileW

namespace Rotate.InodeW

/-- State of the `RotatableFileWriter` of `src/unnamed/part_000` (lines
10 to 16): the `file` field, the numeric `mode`, and the `inode` of the
file last opened (0 when cleared or never established).  The bound
`name` is the single target path of the filesystem model. -/
structure RotatableFileWriter where
  file : Option Rotate.OsFile
  mode : Nat
  inode : Nat
  deriving DecidableEq, Repr

/-- Method `getCurrentInode` of `src/unnamed/part_000` (lines 19 to 26):
stat the path and extract the inode number from the platform stat
structure; on a stat error, the returned inode value is 0. -/
def getCurrentInode (fs : Rotate.Fs) : Except Rotate.GoError Nat :=
  match fs.stat with
  | .error e => .error e
  | .ok fid => .ok fid.ino

/-- Method `hasInodeChanged` of `src/unnamed/part_000` (lines 29 to 36):
query the current inode, discarding the error (which leaves the zero
inode), and report whether it differs from the stored inode. -/
def RotatableFileWriter.hasInodeChanged (w : RotatableFileWriter) (fs : Rotate.Fs) : Bool :=
  match getCurrentInode fs with
  | .error _ => w.inode != 0
  | .ok inode => w.inode != inode

/-- Shared tail of `reopen` in `src/unnamed/part_000` (lines 56 to 70):
open the path (always passing `O_CREATE`), store the handle, query the
inode, store it.  An error from the open or from the inode query is
returned as is; in particular a query failure leaves the just-opened
handle stored with the inode still cleared. -/
def openAndQueryInode (w : RotatableFileWriter) (fs : Rotate.Fs) :
    Option Rotate.GoError × RotatableFileWriter × Rotate.Fs :=
  match fs.openAppendCreate w.mode with
  | .error e => (some e, w, fs)
  | .ok hfs =>
    match getCurrentInode hfs.2 with
    | .error e => (some e, { w with file := some hfs.1 }, hfs.2)
    | .ok inode => (none, { w with file := some hfs.1, inode := inode }, hfs.2)

/-- Method `reopen` of `src/unnamed/part_000` (lines 48 to 71): when a
handle is present, close it and clear both the handle and the inode,
then open the path and query the inode. -/
def RotatableFileWriter.reopen (w : RotatableFileWriter) (fs : Rotate.Fs) :
    Option Rotate.GoError × RotatableFileWriter × Rotate.Fs :=
  match w.file with
  | some _ => openAndQueryInode { w with file := none, inode := 0 } fs
  | none => openAndQueryInode w fs

/-- Method `Close` of `src/unnamed/part_000` (lines 39 to 45): closes
the underlying file; neither `file` nor `inode` is cleared. -/
def RotatableFileWriter.Close (w : RotatableFileWriter) :
    Option Rotate.GoError × RotatableFileWriter :=
  ((Rotate.osClose w.file).1, { w with file := (Rotate.osClose w.file).2 })

/-- Method `Write` of `src/unnamed/part_000` (lines 84 to 105): when the
inode has changed, run `reopen`, propagating its error, then query the
inode once more, propagating a query error, and store the fresh inode;
finally write through the handle. -/
def RotatableFileWriter.Write (w : RotatableFileWriter) (fs : Rotate.Fs) (p : List Nat) :
    (Nat × Option Rotate.GoError) × RotatableFileWriter × Rotate.Fs :=
  if w.hasInodeChanged fs then
    match (w.reopen fs).1 with
    | some e => ((0, some e), (w.reopen fs).2.1, (w.reopen fs).2.2)
    | none =>
      match getCurrentInode (w.reopen fs).2.2 with
      | .error e => ((0, some e), (w.reopen fs).2.1, (w.reopen fs).2.2)
      | .ok newInode =>
        ((Rotate.osWrite (w.reopen fs).2.2 (w.reopen fs).2.1.file p).1,
          { (w.reopen fs).2.1 with inode := newInode },
          (Rotate.osWrite (w.reopen fs).2.2 (w.reopen fs).2.1.file p).2)
  else
    ((Rotate.osWrite fs w.file p).1, w, (Rotate.osWrite fs w.file p).2)

/-- Function `NewRotatableFileWriter` of `src/unnamed/part_000` (lines
108 to 122): build the zero writer and run `reopen`; on error no writer
is produced. -/
def NewRotatableFileWriter (mode : Nat) (fs : Rotate.Fs) :
    Option (RotatableFileWriter × Rotate.Fs) :=
  match (RotatableFileWriter.reopen ⟨none, mode, 0⟩ fs).1 with
  | none => some ((RotatableFileWriter.reopen ⟨none, mode, 0⟩ fs).2.1,
      (RotatableFileWriter.reopen ⟨none, mode, 0⟩ fs).2.2)
  | some _ => none

end Rotate.InodeW

namespace Rotate.SpecModel

/-- Modelled from the spec: the selfCreate-aware open step of the reopen
sequence (spec section 4.1.2 step 2) of the complete variant exercised
by `src/rotate_test.go`, whose implementation is not among the provided
sources.  Opens the path for append-write, creating it when absent only
if selfCreate is true; with selfCreate false a missing file is an error
and no file is created. -/
def selfCreateOpen (selfCreate : Bool) (mode : Nat) (fs : Rotate.Fs) :
    Except Rotate.GoError (Rotate.OsFile × Rotate.Fs) :=
  if fs.openBlocked then .error .permission
  else
    match fs.atPath with
    | some f => if f.writable then .ok (⟨f.fid, true⟩, fs) else .error .permission
    | none =>
      if selfCreate then
        let fid : Rotate.FileId := ⟨fs.dev, fs.nextIno⟩
        .ok (⟨fid, true⟩,
          { fs with atPath := some ⟨fid, Rotate.modeWritable mode, []⟩,
                    nextIno := fs.nextIno + 1 })
      else .error .notExist

/-- Classification of one open attempt, modelled from the spec (section
4.1.2 step 3): transient failures of the permission/race class are
retriable, non-transient failures are not. -/
inductive OpenOutcome where
  | success
  | transientFail
  | fatalFail
  deriving DecidableEq, Repr

/-- Modelled from the spec: the bounded retry loop around the open step
of the complete variant exercised by `src/rotate_test.go`, whose
implementation is not among the provided sources.  The outcome of each
open attempt is supplied by the environment as a function of the attempt
index; the loop stops on success or on a non-transient failure, and
retries a transient failure (after a delay) while the retry budget
lasts.  Returns whether it succeeded and the number of attempts made. -/
def retryOpen : Nat → (Nat → OpenOutcome) → Nat → Bool × Nat
  | 0, out, i =>
    match out i with
    | .success => (true, i + 1)
    | .fatalFail => (false, i + 1)
    | .transientFail => (false, i + 1)
  | b + 1, out, i =>
    match out i with
    | .success => (true, i + 1)
    | .fatalFail => (false, i + 1)
    | .transientFail => retryOpen b out (i + 1)

end Rotate.SpecModel

namespace Rotate

/-- Whether a stat of the path would reach the identity comparison in
the `Write` of `src/rotate.go`: it either succeeds or fails with the
notExist error that `os.IsNotExist` recognises. -/
def Fs.statSoft (fs : Fs) : Bool :=
  match fs.stat with
  | .ok _ => true
  | .error e => e == .notExist

/-- Caller-visible observation of one `Write` call of the
`src/rotate.go` variant: the returned count and error and the resulting
filesystem, or nothing when the call panics. -/
def SameFileW.writeObs (w : SameFileW.RotatableFileWriter) (fs : Fs) (p : List Nat) :
    Option ((Nat × Option GoError) × Fs) :=
  match w.Write fs p with
  | .panicked => none
  | .ok r => some (r.1, r.2.2)

/-- Caller-visible observation of one `Write` call of the
`src/unnamed/part_000` variant: the returned count and error and the
resulting filesystem. -/
def InodeW.writeObs (w : InodeW.RotatableFileWriter) (fs : Fs) (p : List Nat) :
    (Nat × Option GoError) × Fs :=
  ((w.Write fs p).1, (w.Write fs p).2.2)

/-- Demonstration filesystem: one writable file of identity (0, 1) at
the path, no rotation in progress, next fresh inode 2. -/
def fsDemo : Fs := ⟨some ⟨⟨0, 1⟩, true, []⟩, [], false, false, 0, 2⟩

/-- Demonstration filesystem in which a stat of the path fails with a
permission-class error while the file itself is still there. -/
def fsDemoStatBlocked : Fs := { fsDemo with statBlocked := true }

/-- Demonstration filesystem after an external deletion: no file at the
path. -/
def fsDemoNoFile : Fs := { fsDemo with atPath := none }

/-- Demonstration filesystem in which opening the path fails. -/
def fsDemoOpenBlocked : Fs := { fsDemo with openBlocked := true }

/-- The `src/rotate.go` writer state produced by a successful
construction over `fsDemo` with mode 0o666. -/
def wDemo : SameFileW.RotatableFileWriter :=
  ⟨some ⟨⟨0, 1⟩, true⟩, some (some ⟨0, 1⟩), 438⟩

/-- The `src/unnamed/part_000` writer state produced by a successful
construction over `fsDemo` with mode 0o666. -/
def wDemoI : InodeW.RotatableFileWriter := ⟨some ⟨⟨0, 1⟩, true⟩, 438, 1⟩

/-- Characterization of a successful `os.OpenFile` with `O_CREATE`: the
handle is open, the rotation-independent parts of the filesystem are
unchanged, the file at the path matches the handle, and the filesystem
is either untouched or extended by exactly one empty fresh file. -/
theorem Fs.openAppendCreate_ok (fs : Fs) (mode : Nat) (hfs : OsFile × Fs)
    (hop : fs.openAppendCreate mode = .ok hfs) :
    hfs.1.isOpen = true ∧ hfs.2.statBlocked = fs.statBlocked ∧
    hfs.2.openBlocked = fs.openBlocked ∧ hfs.2.orphans = fs.orphans ∧
    hfs.2.dev = fs.dev ∧
    (∃ f, hfs.2.atPath = some f ∧ f.fid = hfs.1.fid) ∧
    (hfs.2 = fs ∨ hfs.2 = { fs with
      atPath := some ⟨⟨fs.dev, fs.nextIno⟩, modeWritable mode, []⟩,
      nextIno := fs.nextIno + 1 }) := by
  obtain ⟨h, fs1⟩ := hfs
  unfold Fs.openAppendCreate at hop
  split at hop
  · exact absurd hop (by simp)
  · split at hop
    · split at hop
      · rename_i f hf hwr
        simp only [Except.ok.injEq, Prod.mk.injEq] at hop
        obtain ⟨rfl, rfl⟩ := hop
        exact ⟨rfl, rfl, rfl, rfl, rfl, ⟨f, hf, rfl⟩, Or.inl rfl⟩
      · exact absurd hop (by simp)
    · rename_i hf
      simp only [Except.ok.injEq, Prod.mk.injEq] at hop
      obtain ⟨rfl, rfl⟩ := hop
      exact ⟨rfl, rfl, rfl, rfl, rfl, ⟨_, rfl, rfl⟩, Or.inr rfl⟩

/-- A stat of the path after appending through any handle returns what
it returned before: appends change neither identities nor presence. -/
theorem Fs.stat_appendTo (fs : Fs) (fid : FileId) (p : List Nat) :
    (fs.appendTo fid p).stat = fs.stat := by
  unfold Fs.appendTo Fs.stat
  rcases hap : fs.atPath with _ | f
  · simp [hap]
  · by_cases hfe : f.fid = fid <;> simp [hap, hfe]

/-- A successful stat means the path is not blocked and carries a file
of the returned identity. -/
theorem Fs.stat_ok (fs : Fs) (fid : FileId) (h : fs.stat = .ok fid) :
    fs.statBlocked = false ∧ ∃ f, fs.atPath = some f ∧ fid = f.fid := by
  unfold Fs.stat at h
  split at h
  · exact absurd h (by simp)
  · rename_i hsb
    split at h
    · exact absurd h (by simp)
    · rename_i f hf
      simp only [Except.ok.injEq] at h
      exact ⟨by simp_all, f, hf, h.symm⟩

/-- A stat of an unblocked path holding a file returns its identity. -/
theorem Fs.stat_of_atPath (fs : Fs) (f : FsFile) (hsb : fs.statBlocked = false)
    (hf : fs.atPath = some f) : fs.stat = .ok f.fid := by
  simp [Fs.stat, hsb, hf]

/-- Characterization of a successful run of the open-then-stat tail of
`reopen` in `src/rotate.go`: the writer gains an open handle and an
identity equal to the identity of the file now at the path. -/
theorem SameFileW.openAndStat_ok (w w1 : SameFileW.RotatableFileWriter) (fs fs1 : Fs)
    (h : SameFileW.openAndStat w fs = (none, w1, fs1)) :
    ∃ hh f, w1 = { w with file := some hh, fileInfo := some (some hh.fid) } ∧
      hh.isOpen = true ∧ fs1.atPath = some f ∧ f.fid = hh.fid ∧
      fs1.statBlocked = false ∧ fs1.stat = .ok hh.fid ∧ fs1.orphans = fs.orphans := by
  unfold SameFileW.openAndStat at h
  split at h
  · exact absurd h (by simp)
  · rename_i hfs hop
    split at h
    · exact absurd h (by simp)
    · rename_i fid hst
      simp only [Prod.mk.injEq] at h
      obtain ⟨-, rfl, rfl⟩ := h
      obtain ⟨hopen, hsb, -, horph, -, ⟨f, hf, hffid⟩, -⟩ :=
        Fs.openAppendCreate_ok fs w.mode hfs hop
      obtain ⟨hsb1, f2, hf2, hfid2⟩ := Fs.stat_ok hfs.2 fid hst
      rw [hf] at hf2
      obtain rfl := Option.some.inj hf2
      rw [hfid2, hffid]
      exact ⟨hfs.1, f, rfl, hopen, hf, hffid, hsb1, by rw [← hffid, ← hfid2]; exact hst, horph⟩

/-- A failed run of the open-then-stat tail of `reopen` in
`src/rotate.go` writes no bytes: the filesystem is unchanged or has
gained exactly one empty fresh file. -/
theorem SameFileW.openAndStat_err (w w1 : SameFileW.RotatableFileWriter) (fs fs1 : Fs)
    (e : GoError) (h : SameFileW.openAndStat w fs = (some e, w1, fs1)) :
    fs1 = fs ∨ fs1 = { fs with
      atPath := some ⟨⟨fs.dev, fs.nextIno⟩, modeWritable w.mode, []⟩,
      nextIno := fs.nextIno + 1 } := by
  unfold SameFileW.openAndStat at h
  split at h
  · simp only [Prod.mk.injEq] at h
    obtain ⟨-, -, rfl⟩ := h
    exact Or.inl rfl
  · rename_i hfs hop
    split at h
    · simp only [Prod.mk.injEq] at h
      obtain ⟨-, -, rfl⟩ := h
      exact (Fs.openAppendCreate_ok fs w.mode hfs hop).2.2.2.2.2.2
    · exact absurd h (by simp)

/-- Characterization of a successful run of the open-then-query tail of
`reopen` in `src/unnamed/part_000`: the writer gains an open handle and
the inode of the file now at the path. -/
theorem InodeW.openAndQueryInode_ok (w w1 : InodeW.RotatableFileWriter) (fs fs1 : Fs)
    (h : InodeW.openAndQueryInode w fs = (none, w1, fs1)) :
    ∃ hh f, w1 = { w with file := some hh, inode := f.fid.ino } ∧
      hh.isOpen = true ∧ fs1.atPath = some f ∧ f.fid = hh.fid ∧
      fs1.statBlocked = false ∧ InodeW.getCurrentInode fs1 = .ok f.fid.ino ∧
      fs1.orphans = fs.orphans := by
  unfold InodeW.openAndQueryInode at h
  split at h
  · exact absurd h (by simp)
  · rename_i hfs hop
    split at h
    · exact absurd h (by simp)
    · rename_i ino hq
      simp only [Prod.mk.injEq] at h
      obtain ⟨-, rfl, rfl⟩ := h
      obtain ⟨hopen, hsb, -, horph, -, ⟨f, hf, hffid⟩, -⟩ :=
        Fs.openAppendCreate_ok fs w.mode hfs hop
      have hst : hfs.2.stat = .ok f.fid := by
        unfold InodeW.getCurrentInode at hq
        split at hq
        · exact absurd hq (by simp)
        · rename_i fid hst
          obtain ⟨hsb1, f2, hf2, hfid2⟩ := Fs.stat_ok hfs.2 fid hst
          rw [hf] at hf2
          obtain rfl := Option.some.inj hf2
          rw [← hfid2]
          exact hst
      have hino : ino = f.fid.ino := by
        unfold InodeW.getCurrentInode at hq
        rw [hst] at hq
        simpa using hq.symm
      subst hino
      refine ⟨hfs.1, f, rfl, hopen, hf, hffid,
        (Fs.stat_ok hfs.2 f.fid hst).1, ?_, horph⟩
      unfold InodeW.getCurrentInode
      rw [hst]

/-- A failed run of the open-then-query tail of `reopen` in
`src/unnamed/part_000` writes no bytes: the filesystem is unchanged or
has gained exactly one empty fresh file. -/
theorem InodeW.openAndQueryInode_err (w w1 : InodeW.RotatableFileWriter) (fs fs1 : Fs)
    (e : GoError) (h : InodeW.openAndQueryInode w fs = (some e, w1, fs1)) :
    fs1 = fs ∨ fs1 = { fs with
      atPath := some ⟨⟨fs.dev, fs.nextIno⟩, modeWritable w.mode, []⟩,
      nextIno := fs.nextIno + 1 } := by
  unfold InodeW.openAndQueryInode at h
  split at h
  · simp only [Prod.mk.injEq] at h
    obtain ⟨-, -, rfl⟩ := h
    exact Or.inl rfl
  · rename_i hfs hop
    split at h
    · simp only [Prod.mk.injEq] at h
      obtain ⟨-, -, rfl⟩ := h
      exact (Fs.openAppendCreate_ok fs w.mode hfs hop).2.2.2.2.2.2
    · exact absurd h (by simp)

/-- Characterization of a successful `reopen` of `src/rotate.go`: the
resulting writer holds an open handle onto the file now at the path and
an identity equal to that file's identity, and a stat of the resulting
filesystem returns that same identity. -/
theorem SameFileW.reopen_sf_ok (w w1 : SameFileW.RotatableFileWriter) (fs fs1 : Fs)
    (h : w.reopen fs = (none, w1, fs1)) :
    ∃ hh f, w1.file = some hh ∧ w1.fileInfo = some (some hh.fid) ∧
      w1.mode = w.mode ∧ hh.isOpen = true ∧ fs1.atPath = some f ∧
      f.fid = hh.fid ∧ fs1.statBlocked = false ∧ fs1.stat = .ok hh.fid ∧
      fs1.orphans = fs.orphans := by
  unfold SameFileW.RotatableFileWriter.reopen at h
  split at h <;>
    obtain ⟨hh, f, rfl, hrest⟩ := SameFileW.openAndStat_ok _ w1 fs fs1 h <;>
    exact ⟨hh, f, rfl, rfl, rfl, hrest⟩

/-- A failed `reopen` of `src/rotate.go` writes no bytes: the
filesystem is unchanged or has gained exactly one empty fresh file. -/
theorem SameFileW.reopen_sf_err (w w1 : SameFileW.RotatableFileWriter) (fs fs1 : Fs)
    (e : GoError) (h : w.reopen fs = (some e, w1, fs1)) :
    fs1 = fs ∨ fs1 = { fs with
      atPath := some ⟨⟨fs.dev, fs.nextIno⟩, modeWritable w.mode, []⟩,
      nextIno := fs.nextIno + 1 } := by
  unfold SameFileW.RotatableFileWriter.reopen at h
  split at h
  · exact SameFileW.openAndStat_err { w with file := none, fileInfo := none } w1 fs fs1 e h
  · exact SameFileW.openAndStat_err w w1 fs fs1 e h

/-- Characterization of a successful `reopen` of
`src/unnamed/part_000`: the resulting writer holds an open handle onto
the file now at the path and its stored inode is that file's inode,
which a fresh inode query of the resulting filesystem also returns. -/
theorem InodeW.reopen_ino_ok (w w1 : InodeW.RotatableFileWriter) (fs fs1 : Fs)
    (h : w.reopen fs = (none, w1, fs1)) :
    ∃ hh f, w1.file = some hh ∧ w1.inode = f.fid.ino ∧
      w1.mode = w.mode ∧ hh.isOpen = true ∧ fs1.atPath = some f ∧
      f.fid = hh.fid ∧ fs1.statBlocked = false ∧
      InodeW.getCurrentInode fs1 = .ok f.fid.ino ∧ fs1.orphans = fs.orphans := by
  unfold InodeW.RotatableFileWriter.reopen at h
  split at h <;>
    obtain ⟨hh, f, rfl, hrest⟩ := InodeW.openAndQueryInode_ok _ w1 fs fs1 h <;>
    exact ⟨hh, f, rfl, rfl, rfl, hrest⟩

/-- A failed `reopen` of `src/unnamed/part_000` writes no bytes: the
filesystem is unchanged or has gained exactly one empty fresh file. -/
theorem InodeW.reopen_ino_err (w w1 : InodeW.RotatableFileWriter) (fs fs1 : Fs)
    (e : GoError) (h : w.reopen fs = (some e, w1, fs1)) :
    fs1 = fs ∨ fs1 = { fs with
      atPath := some ⟨⟨fs.dev, fs.nextIno⟩, modeWritable w.mode, []⟩,
      nextIno := fs.nextIno + 1 } := by
  unfold InodeW.RotatableFileWriter.reopen at h
  split at h
  · exact InodeW.openAndQueryInode_err { w with file := none, inode := 0 } w1 fs fs1 e h
  · exact InodeW.openAndQueryInode_err w w1 fs fs1 e h

/-- The writer produced by a successful `reopen` of `src/rotate.go`
satisfies the handle-and-identity consistency predicate. -/
theorem SameFileW.consistentB_reopen_ok (w w1 : SameFileW.RotatableFileWriter)
    (fs fs1 : Fs) (h : w.reopen fs = (none, w1, fs1)) :
    SameFileW.consistentB w1 = true := by
  obtain ⟨hh, f, hfile, hinfo, -⟩ := SameFileW.reopen_sf_ok w w1 fs fs1 h
  simp [SameFileW.consistentB, hfile, hinfo]

/-- C1 (amended): the handle-and-identity consistency invariant holds
after successful construction, is re-established by every successful
`reopen` (hence by every successful `Reopen`), and is preserved by
`Close`.  (It is not preserved by a reopen whose post-open stat fails,
nor by a successful `Write`-triggered reopen, which overwrites the
identity with the one queried before reopening.) -/
theorem consistency_construction_reopen_close :
    (∀ (mode : Nat) (fs : Fs) (w : SameFileW.RotatableFileWriter) (fs1 : Fs),
      SameFileW.NewRotatableFileWriter mode fs = some (w, fs1) →
      SameFileW.consistentB w = true) ∧
    (∀ (w w1 : SameFileW.RotatableFileWriter) (fs fs1 : Fs),
      w.reopen fs = (none, w1, fs1) → SameFileW.consistentB w1 = true) ∧
    (∀ w : SameFileW.RotatableFileWriter, SameFileW.consistentB w = true →
      SameFileW.consistentB (SameFileW.RotatableFileWriter.Close w).2 = true) := by
  refine ⟨?_, SameFileW.consistentB_reopen_ok, ?_⟩
  · intro mode fs w fs1 h
    unfold SameFileW.NewRotatableFileWriter at h
    split at h
    · rename_i heq
      simp only [Option.some.injEq, Prod.mk.injEq] at h
      obtain ⟨rfl, rfl⟩ := h
      exact SameFileW.consistentB_reopen_ok _ _ fs _ (by rw [← heq])
    · exact absurd h (by simp)
  · intro w hw
    obtain ⟨f, fi, m⟩ := w
    rcases f with _ | h
    · simpa [SameFileW.RotatableFileWriter.Close, Rotate.osClose,
        SameFileW.consistentB] using hw
    · rcases fi with _ | fi0
      · simp [SameFileW.consistentB] at hw
      · rcases fi0 with _ | fid
        · simp [SameFileW.consistentB] at hw
        · by_cases ho : h.isOpen <;>
            simp_all [SameFileW.RotatableFileWriter.Close, Rotate.osClose,
              SameFileW.consistentB]

/-- C1 (witness): the preserved parts of the invariant evaluated on the
demonstration writer. -/
theorem consistency_construction_reopen_close_witness :
    SameFileW.consistentB wDemo = true ∧
    SameFileW.consistentB (SameFileW.RotatableFileWriter.Close wDemo).2 = true :=
  ⟨consistency_construction_reopen_close.1 438 fsDemo wDemo fsDemo (by decide),
   consistency_construction_reopen_close.2.2 wDemo (by decide)⟩

/-- C1 (counterexample): a `Reopen` call against a filesystem whose
stat fails (while the open succeeds) starts from a consistent,
construction-reachable writer, returns an error, and leaves a writer
holding a handle with no identity — the invariant is not preserved by
every `Reopen` call that returns an error. -/
theorem consistency_broken_by_stat_failing_reopen :
    SameFileW.NewRotatableFileWriter 438 fsDemo = some (wDemo, fsDemo) ∧
    SameFileW.consistentB wDemo = true ∧
    (wDemo.reopen fsDemoStatBlocked).1 = some .permission ∧
    SameFileW.consistentB (wDemo.reopen fsDemoStatBlocked).2.1 = false := by
  decide

/-- C2 (amended): when the open step of `reopen` in `src/rotate.go`
succeeds and the subsequent stat fails, `reopen` reports the stat error
but performs no rollback: the just-opened handle stays stored and open
while the stored identity is cleared (when a previous handle was
present) or left untouched (when there was none). -/
theorem reopen_stat_failure_keeps_handle :
    ∀ (w : SameFileW.RotatableFileWriter) (fs : Fs) (hfs : OsFile × Fs) (e : GoError),
      fs.openAppendCreate w.mode = .ok hfs →
      hfs.2.stat = .error e →
      w.reopen fs = (some e,
        ⟨some hfs.1, match w.file with | some _ => none | none => w.fileInfo, w.mode⟩,
        hfs.2) := by
  intro w fs hfs e hop hstat
  unfold SameFileW.RotatableFileWriter.reopen
  rcases hf : w.file with _ | h0 <;>
    simp [SameFileW.openAndStat, hop, hstat, hf]

/-- C2 (witness): the no-rollback behaviour evaluated on the
demonstration writer over the stat-blocked filesystem. -/
theorem reopen_stat_failure_keeps_handle_witness :
    wDemo.reopen fsDemoStatBlocked = (some .permission,
      ⟨some ⟨⟨0, 1⟩, true⟩, none, 438⟩, fsDemoStatBlocked) :=
  reopen_stat_failure_keeps_handle wDemo fsDemoStatBlocked
    (⟨⟨0, 1⟩, true⟩, fsDemoStatBlocked) .permission (by decide) (by decide)

/-- C2 (counterexample): in that same execution the writer is left with
a stored open handle (not with no handle) and no identity, refuting the
claimed rollback. -/
theorem reopen_stat_failure_no_rollback_cex :
    (wDemo.reopen fsDemoStatBlocked).1 = some .permission ∧
    (wDemo.reopen fsDemoStatBlocked).2.1.file = some ⟨⟨0, 1⟩, true⟩ ∧
    (wDemo.reopen fsDemoStatBlocked).2.1.file ≠ none ∧
    (wDemo.reopen fsDemoStatBlocked).2.1.fileInfo = none := by
  decide

/-- C3 (confirmed): when a `Write` stats a path that does not exist,
the query result compares unequal to every previously stored identity
(a nil `os.FileInfo` is never the same file; an inode of 0 never equals
a stored nonzero inode), so both variants perform the reopen sequence —
here completed successfully, creating the file and writing the bytes —
instead of returning the stat failure as an error. -/
theorem write_missing_path_triggers_reopen :
    ∀ (fs : Fs) (p : List Nat) (stored : Option FileId)
      (ws : SameFileW.RotatableFileWriter) (wi : InodeW.RotatableFileWriter),
      fs.statBlocked = false → fs.atPath = none → fs.openBlocked = false →
      ws.fileInfo = some stored → wi.inode ≠ 0 →
      SameFileW.sameFile stored none = false ∧
      wi.hasInodeChanged fs = true ∧
      ws.Write fs p = .ok ((p.length, none),
        ⟨some ⟨⟨fs.dev, fs.nextIno⟩, true⟩, some none, ws.mode⟩, { fs with
        atPath := some ⟨⟨fs.dev, fs.nextIno⟩, modeWritable ws.mode, p⟩,
        nextIno := fs.nextIno + 1 }) ∧
      wi.Write fs p = ((p.length, none),
        ⟨some ⟨⟨fs.dev, fs.nextIno⟩, true⟩, wi.mode, fs.nextIno⟩, { fs with
        atPath := some ⟨⟨fs.dev, fs.nextIno⟩, modeWritable wi.mode, p⟩,
        nextIno := fs.nextIno + 1 }) := by
  intro fs p stored ws wi hsb hap hob hinfo hino
  obtain ⟨ap, orph, sb, ob, dv, ni⟩ := fs
  simp only at hsb hap hob
  subst hsb hap hob
  obtain ⟨wf, wfi, wm⟩ := ws
  simp only at hinfo
  subst hinfo
  obtain ⟨vf, vm, vi⟩ := wi
  simp only at hino
  refine ⟨by rcases stored with _ | a <;> rfl, ?_, ?_, ?_⟩
  · simp [InodeW.RotatableFileWriter.hasInodeChanged, InodeW.getCurrentInode,
      Fs.stat, hino]
  · rcases wf with _ | h0 <;>
      simp [SameFileW.RotatableFileWriter.Write, SameFileW.writeTail,
        SameFileW.RotatableFileWriter.reopen, SameFileW.openAndStat,
        SameFileW.sameFile, Fs.stat, Fs.openAppendCreate, Fs.appendTo,
        Rotate.osWrite] <;>
      rcases stored with _ | a <;> simp [SameFileW.sameFile]
  · rcases vf with _ | h0 <;>
      simp [InodeW.RotatableFileWriter.Write,
        InodeW.RotatableFileWriter.hasInodeChanged, InodeW.getCurrentInode,
        InodeW.RotatableFileWriter.reopen, InodeW.openAndQueryInode,
        Fs.stat, Fs.openAppendCreate, Fs.appendTo, Rotate.osWrite, hino]

/-- C3 (witness): the missing-path write evaluated on the demonstration
writers over the deleted-file filesystem. -/
theorem write_missing_path_triggers_reopen_witness :
    SameFileW.sameFile (some ⟨0, 1⟩) none = false ∧
    wDemoI.hasInodeChanged fsDemoNoFile = true ∧
    wDemo.Write fsDemoNoFile [7] = .ok ((1, none),
      ⟨some ⟨⟨0, 2⟩, true⟩, some none, 438⟩,
      ⟨some ⟨⟨0, 2⟩, true, [7]⟩, [], false, false, 0, 3⟩) ∧
    wDemoI.Write fsDemoNoFile [7] = ((1, none),
      ⟨some ⟨⟨0, 2⟩, true⟩, 438, 2⟩,
      ⟨some ⟨⟨0, 2⟩, true, [7]⟩, [], false, false, 0, 3⟩) := by
  have h := write_missing_path_triggers_reopen fsDemoNoFile [7] (some ⟨0, 1⟩)
    wDemo wDemoI (by decide) (by decide) (by decide) (by decide) (by decide)
  simpa [fsDemoNoFile, fsDemo, wDemo, wDemoI] using h

/-- C4 (confirmed, against the spec-modelled open step): with no file at
the path and opening not otherwise blocked, the open fails with the
notExist error when selfCreate is false — returning no handle and no
changed filesystem, so no file is silently created — and creates the
file exactly when selfCreate is true. -/
theorem selfCreate_gates_creation :
    ∀ (mode : Nat) (fs : Fs), fs.openBlocked = false → fs.atPath = none →
      SpecModel.selfCreateOpen false mode fs = .error .notExist ∧
      SpecModel.selfCreateOpen true mode fs =
        .ok (⟨⟨fs.dev, fs.nextIno⟩, true⟩, { fs with
          atPath := some ⟨⟨fs.dev, fs.nextIno⟩, modeWritable mode, []⟩,
          nextIno := fs.nextIno + 1 }) := by
  intro mode fs hob hap
  obtain ⟨ap, orph, sb, ob, dv, ni⟩ := fs
  simp only at hob hap
  subst hob hap
  exact ⟨rfl, rfl⟩

/-- C4 (witness): the gating evaluated over the deleted-file
demonstration filesystem. -/
theorem selfCreate_gates_creation_witness :
    SpecModel.selfCreateOpen false 438 fsDemoNoFile = .error .notExist ∧
    SpecModel.selfCreateOpen true 438 fsDemoNoFile =
      .ok (⟨⟨0, 2⟩, true⟩, ⟨some ⟨⟨0, 2⟩, true, []⟩, [], false, false, 0, 3⟩) := by
  have h := selfCreate_gates_creation 438 fsDemoNoFile (by decide) (by decide)
  simpa [fsDemoNoFile, fsDemo] using h

/-- Unrolling of the spec-modelled retry loop from any start index: a
run of transient failures shorter than the remaining budget is retried
through, and the first decisive attempt (success or a non-transient
failure) ends the loop at that attempt. -/
theorem retryOpen_run (out : Nat → SpecModel.OpenOutcome) :
    ∀ (k i budget : Nat),
      (∀ j, j < k → out (i + j) = .transientFail) → k ≤ budget →
      (out (i + k) = .success →
        SpecModel.retryOpen budget out i = (true, i + k + 1)) ∧
      (out (i + k) = .fatalFail →
        SpecModel.retryOpen budget out i = (false, i + k + 1)) := by
  intro k
  induction k with
  | zero =>
    intro i budget hT hB
    simp only [Nat.add_zero]
    constructor <;> intro h <;> rcases budget with _ | b <;>
      simp [SpecModel.retryOpen, h]
  | succ k ih =>
    intro i budget hT hB
    have h0 : out i = .transientFail := by simpa using hT 0 (Nat.succ_pos k)
    rcases budget with _ | b
    · omega
    have hstep : SpecModel.retryOpen (b + 1) out i = SpecModel.retryOpen b out (i + 1) := by
      simp [SpecModel.retryOpen, h0]
    have hT2 : ∀ j, j < k → out (i + 1 + j) = .transientFail := by
      intro j hj
      have := hT (j + 1) (by omega)
      rwa [show i + (j + 1) = i + 1 + j by omega] at this
    have := ih (i + 1) b hT2 (by omega)
    rw [show i + 1 + k = i + (k + 1) by omega] at this
    exact ⟨fun h => by rw [hstep]; exact this.1 h,
      fun h => by rw [hstep]; exact this.2 h⟩

/-- C5 (confirmed, against the spec-modelled retry loop): transient
open failures are retried — after k transient attempts within the
budget, a success on attempt k ends the loop successfully at attempt
k + 1 — while a non-transient failure on the first decisive attempt is
surfaced right there, with no further attempt. -/
theorem retry_transient_bounded_fatal_immediate :
    ∀ (budget k : Nat) (out : Nat → SpecModel.OpenOutcome),
      (∀ j, j < k → out j = .transientFail) → k ≤ budget →
      (out k = .success → SpecModel.retryOpen budget out 0 = (true, k + 1)) ∧
      (out k = .fatalFail → SpecModel.retryOpen budget out 0 = (false, k + 1)) := by
  intro budget k out hT hB
  have h := retryOpen_run out k 0 budget (by simpa using hT) hB
  simpa using h

/-- C5 (witness): a run with two transient failures then success
succeeds on the third attempt, and a run whose first attempt fails
fatally stops after one attempt. -/
theorem retry_transient_bounded_fatal_immediate_witness :
    SpecModel.retryOpen 3 (fun j => if j < 2 then .transientFail else .success) 0 =
      (true, 3) ∧
    SpecModel.retryOpen 3 (fun _ => .fatalFail) 0 = (false, 1) :=
  ⟨(retry_transient_bounded_fatal_immediate 3 2
      (fun j => if j < 2 then .transientFail else .success)
      (by intro j hj; interval_cases j <;> rfl) (by omega)).1 rfl,
   (retry_transient_bounded_fatal_immediate 3 0 (fun _ => .fatalFail)
      (by intro j hj; omega) (by omega)).2 rfl⟩

/-- C6 (confirmed): in both variants, a `Write` whose identity
comparison detects a difference and whose reopen sequence then fails
returns count 0 with exactly the reopen error, and writes no bytes to
any file: the filesystem is left unchanged, or extended by one empty
freshly created file when the failure struck after a creating open. -/
theorem failed_reopen_write_propagates_error :
    ∀ (ws ws1 : SameFileW.RotatableFileWriter) (wi wi1 : InodeW.RotatableFileWriter)
      (fs fs1 fsi1 : Fs) (p : List Nat) (stored : Option FileId) (e ei : GoError),
      fs.statSoft = true →
      ws.fileInfo = some stored →
      SameFileW.sameFile stored fs.stat.toOption = false →
      ws.reopen fs = (some e, ws1, fs1) →
      wi.hasInodeChanged fs = true →
      wi.reopen fs = (some ei, wi1, fsi1) →
      ws.Write fs p = .ok ((0, some e), ws1, fs1) ∧
      (fs1 = fs ∨ fs1 = { fs with
        atPath := some ⟨⟨fs.dev, fs.nextIno⟩, modeWritable ws.mode, []⟩,
        nextIno := fs.nextIno + 1 }) ∧
      wi.Write fs p = ((0, some ei), wi1, fsi1) ∧
      (fsi1 = fs ∨ fsi1 = { fs with
        atPath := some ⟨⟨fs.dev, fs.nextIno⟩, modeWritable wi.mode, []⟩,
        nextIno := fs.nextIno + 1 }) := by
  intro ws ws1 wi wi1 fs fs1 fsi1 p stored e ei hsoft hinfo hsame hre hchg hrei
  refine ⟨?_, SameFileW.reopen_sf_err ws ws1 fs fs1 e hre, ?_,
    InodeW.reopen_ino_err wi wi1 fs fsi1 ei hrei⟩
  · unfold SameFileW.RotatableFileWriter.Write
    rcases hst : fs.stat with e0 | fid <;> rw [hst] at hsame
    · have he0 : e0 = GoError.notExist := by
        unfold Fs.statSoft at hsoft
        rw [hst] at hsoft
        simpa using hsoft
      subst he0
      simp only [Except.toOption] at hsame
      simp [SameFileW.writeTail, hinfo, hsame, hre]
    · simp only [Except.toOption] at hsame
      simp [SameFileW.writeTail, hinfo, hsame, hre]
  · unfold InodeW.RotatableFileWriter.Write
    rw [hchg]
    simp [hrei]

/-- C6 (witness): the error-propagating write evaluated on writers
whose stored identity differs from the file at the path while opening
is blocked. -/
theorem failed_reopen_write_propagates_error_witness :
    SameFileW.RotatableFileWriter.Write ⟨some ⟨⟨0, 1⟩, true⟩, some (some ⟨0, 9⟩), 438⟩
      fsDemoOpenBlocked [5] =
      .ok ((0, some .permission), ⟨none, none, 438⟩, fsDemoOpenBlocked) ∧
    InodeW.RotatableFileWriter.Write ⟨some ⟨⟨0, 1⟩, true⟩, 438, 9⟩
      fsDemoOpenBlocked [5] =
      ((0, some .permission), ⟨none, 438, 0⟩, fsDemoOpenBlocked) := by
  have h := failed_reopen_write_propagates_error
    ⟨some ⟨⟨0, 1⟩, true⟩, some (some ⟨0, 9⟩), 438⟩ ⟨none, none, 438⟩
    ⟨some ⟨⟨0, 1⟩, true⟩, 438, 9⟩ ⟨none, 438, 0⟩
    fsDemoOpenBlocked fsDemoOpenBlocked fsDemoOpenBlocked [5] (some ⟨0, 9⟩)
    .permission .permission (by decide) rfl (by decide) (by decide) (by decide)
    (by decide)
  exact ⟨h.1, h.2.2.1⟩

/-- An inode query is unaffected by appending bytes through a handle. -/
theorem InodeW.getCurrentInode_appendTo (fs : Fs) (fid : FileId) (p : List Nat) :
    InodeW.getCurrentInode (fs.appendTo fid p) = InodeW.getCurrentInode fs := by
  unfold InodeW.getCurrentInode
  rw [Fs.stat_appendTo]

/-- C7 (amended): after every successful explicit reopen, in both
variants, the stored identity equals a fresh identity query of the path
taken immediately after, and the same holds for a successful
`Write`-triggered reopen of the inode variant; the `os.SameFile`
variant's `Write`, however, overwrites the identity stored by `reopen`
with the one queried before reopening, so there the round trip can
fail (see the counterexample). -/
theorem identity_roundtrip_after_reopen :
    (∀ (w w1 : SameFileW.RotatableFileWriter) (fs fs1 : Fs),
      w.reopen fs = (none, w1, fs1) →
      w1.fileInfo = some fs1.stat.toOption ∧ fs1.stat.toOption.isSome = true) ∧
    (∀ (w w1 : InodeW.RotatableFileWriter) (fs fs1 : Fs),
      w.reopen fs = (none, w1, fs1) →
      InodeW.getCurrentInode fs1 = .ok w1.inode) ∧
    (∀ (wi : InodeW.RotatableFileWriter) (fs : Fs) (p : List Nat),
      wi.hasInodeChanged fs = true →
      (wi.Write fs p).1.2 = none →
      InodeW.getCurrentInode (wi.Write fs p).2.2 = .ok (wi.Write fs p).2.1.inode) := by
  refine ⟨?_, ?_, ?_⟩
  · intro w w1 fs fs1 h
    obtain ⟨hh, f, hfile, hinfo, hmode, hopen, hap, hffid, hsb, hstat, horph⟩ :=
      SameFileW.reopen_sf_ok w w1 fs fs1 h
    rw [hstat, hinfo]
    simp [Except.toOption]
  · intro w w1 fs fs1 h
    obtain ⟨hh, f, hfile, hinode, hmode, hopen, hap, hffid, hsb, hq, horph⟩ :=
      InodeW.reopen_ino_ok w w1 fs fs1 h
    rw [hq, hinode]
  · intro wi fs p hchg hok
    simp only [InodeW.RotatableFileWriter.Write, hchg, if_true] at hok ⊢
    rcases hre : wi.reopen fs with ⟨eo, w1, fs1⟩
    rcases eo with _ | e
    · simp only [hre] at hok ⊢
      rcases hq : InodeW.getCurrentInode fs1 with e | n
      · simp [hq] at hok
      · simp only [hq] at hok ⊢
        obtain ⟨hh, f, hfile, hinode, hmode, hopen, hap, hffid, hsb, hq2, horph⟩ :=
          InodeW.reopen_ino_ok wi w1 fs fs1 hre
        rw [hfile]
        simp only [Rotate.osWrite, hopen, if_true]
        rw [InodeW.getCurrentInode_appendTo, hq]
    · simp [hre] at hok

/-- C7 (witness): the round trip evaluated after a `Reopen` of each
demonstration writer and after a `Write`-triggered reopen of the inode
variant. -/
theorem identity_roundtrip_after_reopen_witness :
    wDemo.fileInfo = some (Fs.stat fsDemo).toOption ∧
    InodeW.getCurrentInode fsDemo = .ok wDemoI.inode ∧
    InodeW.getCurrentInode (wDemoI.Write fsDemoNoFile [7]).2.2 =
      .ok (wDemoI.Write fsDemoNoFile [7]).2.1.inode :=
  ⟨(identity_roundtrip_after_reopen.1 wDemo wDemo fsDemo fsDemo (by decide)).1,
   identity_roundtrip_after_reopen.2.1 wDemoI wDemoI fsDemo fsDemo (by decide),
   identity_roundtrip_after_reopen.2.2 wDemoI fsDemoNoFile [7] (by decide) (by decide)⟩

/-- C7 (counterexample): a successful `Write`-triggered reopen of the
`os.SameFile` variant over a deleted path stores the nil pre-reopen
query result as the identity, which differs from a fresh identity query
of the path taken immediately after the call. -/
theorem write_reopen_stores_stale_identity_cex :
    SameFileW.NewRotatableFileWriter 438 fsDemo = some (wDemo, fsDemo) ∧
    wDemo.Write fsDemoNoFile [7] = .ok ((1, none),
      ⟨some ⟨⟨0, 2⟩, true⟩, some none, 438⟩,
      ⟨some ⟨⟨0, 2⟩, true, [7]⟩, [], false, false, 0, 3⟩) ∧
    (⟨some ⟨⟨0, 2⟩, true⟩, some none, 438⟩ :
      SameFileW.RotatableFileWriter).fileInfo ≠
      some (Fs.stat ⟨some ⟨⟨0, 2⟩, true, [7]⟩, [], false, false, 0, 3⟩).toOption := by
  decide

/-- C8 (amended): after `Close`, a `Write` that detects no rotation
fails cleanly in both variants — it returns count 0 with the
closed-file error, does not crash, and changes nothing — but a `Write`
that detects rotation performs the ordinary reopen sequence and may
then succeed (see the counterexample). -/
theorem write_after_close_without_rotation_fails :
    ∀ (ws : SameFileW.RotatableFileWriter) (wi : InodeW.RotatableFileWriter)
      (fs : Fs) (p : List Nat) (h hi : OsFile) (stored : Option FileId) (fid : FileId),
      ws.file = some h → h.isOpen = false → ws.fileInfo = some stored →
      fs.stat = .ok fid → SameFileW.sameFile stored (some fid) = true →
      wi.file = some hi → hi.isOpen = false → wi.hasInodeChanged fs = false →
      ws.Write fs p = .ok ((0, some .errClosed), ws, fs) ∧
      wi.Write fs p = ((0, some .errClosed), wi, fs) := by
  intro ws wi fs p h hi stored fid hfile hclosed hinfo hstat hsame hfilei hclosedi hchg
  constructor
  · unfold SameFileW.RotatableFileWriter.Write
    rw [hstat]
    simp [SameFileW.writeTail, hinfo, hsame, Rotate.osWrite, hfile, hclosed]
  · unfold InodeW.RotatableFileWriter.Write
    rw [hchg]
    simp [Rotate.osWrite, hfilei, hclosedi]

/-- C8 (witness): the clean failure evaluated on the closed
demonstration writers over the unrotated filesystem. -/
theorem write_after_close_without_rotation_fails_witness :
    SameFileW.RotatableFileWriter.Write
      ⟨some ⟨⟨0, 1⟩, false⟩, some (some ⟨0, 1⟩), 438⟩ fsDemo [7] =
      .ok ((0, some .errClosed), ⟨some ⟨⟨0, 1⟩, false⟩, some (some ⟨0, 1⟩), 438⟩, fsDemo) ∧
    InodeW.RotatableFileWriter.Write ⟨some ⟨⟨0, 1⟩, false⟩, 438, 1⟩ fsDemo [7] =
      ((0, some .errClosed), ⟨some ⟨⟨0, 1⟩, false⟩, 438, 1⟩, fsDemo) :=
  write_after_close_without_rotation_fails
    ⟨some ⟨⟨0, 1⟩, false⟩, some (some ⟨0, 1⟩), 438⟩ ⟨some ⟨⟨0, 1⟩, false⟩, 438, 1⟩
    fsDemo [7] ⟨⟨0, 1⟩, false⟩ ⟨⟨0, 1⟩, false⟩ (some ⟨0, 1⟩) ⟨0, 1⟩
    rfl rfl rfl (by decide) (by decide) rfl rfl (by decide)

/-- C8 (counterexample): `Close` on the demonstration writer succeeds,
and after an external deletion of the path a subsequent `Write` does
not fail: it reopens and writes its byte successfully. -/
theorem write_after_close_can_succeed_cex :
    (SameFileW.RotatableFileWriter.Close wDemo).1 = none ∧
    (SameFileW.RotatableFileWriter.Close wDemo).2.Write fsDemoNoFile [7] =
      .ok ((1, none), ⟨some ⟨⟨0, 2⟩, true⟩, some none, 438⟩,
        ⟨some ⟨⟨0, 2⟩, true, [7]⟩, [], false, false, 0, 3⟩) := by
  decide

/-- A `Write` of the `os.SameFile` variant that reaches the identity
comparison with a present stored identity never panics. -/
theorem SameFileW.writeTail_ne_panicked (w : SameFileW.RotatableFileWriter)
    (fs : Fs) (p : List Nat) (cur : Option FileId) (stored : Option FileId)
    (hfi : w.fileInfo = some stored) :
    SameFileW.writeTail w fs p cur ≠ .panicked := by
  unfold SameFileW.writeTail
  rw [hfi]
  by_cases hsf : SameFileW.sameFile stored cur
  · simp [hsf]
  · simp only [hsf]
    rcases hre : (w.reopen fs).1 with _ | e <;> simp [hre]

/-- A `Write` of the `os.SameFile` variant that reaches the identity
comparison with a nil stored identity pointer panics. -/
theorem SameFileW.writeTail_panicked_of_none (w : SameFileW.RotatableFileWriter)
    (fs : Fs) (p : List Nat) (cur : Option FileId) (hfi : w.fileInfo = none) :
    SameFileW.writeTail w fs p cur = .panicked := by
  unfold SameFileW.writeTail
  rw [hfi]

/-- C9 (amended): a `Write` of the `os.SameFile` variant panics exactly
when the stored identity pointer is nil and the stat reaches the
comparison (it succeeds or fails with notExist).  After construction
and after every successful reopen the identity is present, so such
writes cannot panic; after a reopen that failed at the open step — which
clears the identity — the next write that reaches the comparison
panics (see the counterexample). -/
theorem write_panics_iff_identity_absent :
    ∀ (w : SameFileW.RotatableFileWriter) (fs : Fs) (p : List Nat),
      w.Write fs p = .panicked ↔ (w.fileInfo = none ∧ fs.statSoft = true) := by
  intro w fs p
  unfold SameFileW.RotatableFileWriter.Write Fs.statSoft
  rcases hst : fs.stat with e0 | fid
  · by_cases he : e0 = GoError.notExist
    · subst he
      simp only [if_pos rfl]
      constructor
      · intro h
        rcases hfi : w.fileInfo with _ | stored
        · exact ⟨rfl, by simp⟩
        · exact absurd h (SameFileW.writeTail_ne_panicked w fs p none stored hfi)
      · rintro ⟨hfi, -⟩
        exact SameFileW.writeTail_panicked_of_none w fs p none hfi
    · simp [he]
  · constructor
    · intro h
      rcases hfi : w.fileInfo with _ | stored
      · exact ⟨rfl, by simp⟩
      · exact absurd h (SameFileW.writeTail_ne_panicked w fs p (some fid) stored hfi)
    · rintro ⟨hfi, -⟩
      exact SameFileW.writeTail_panicked_of_none w fs p (some fid) hfi

/-- C9 (counterexample): a `Reopen` that fails while opening is blocked
clears both handle and identity; a subsequent `Write` over the
recovered filesystem dereferences the nil identity pointer and
panics — reachable from a successfully constructed writer. -/
theorem write_after_failed_reopen_panics_cex :
    SameFileW.NewRotatableFileWriter 438 fsDemo = some (wDemo, fsDemo) ∧
    wDemo.reopen fsDemoOpenBlocked =
      (some .permission, ⟨none, none, 438⟩, fsDemoOpenBlocked) ∧
    SameFileW.RotatableFileWriter.Write ⟨none, none, 438⟩ fsDemo [7] = .panicked := by
  decide

/-- When both variants hold some handle and share a mode, their reopen
sequences over an unblocked-stat filesystem return the same error, the
same filesystem, and the same handle field. -/
theorem reopen_align (ws : SameFileW.RotatableFileWriter)
    (wi : InodeW.RotatableFileWriter) (fs : Fs) (m : Nat)
    (hsb : fs.statBlocked = false) (hwsm : ws.mode = m) (hwim : wi.mode = m)
    (hws : ws.file.isSome = true) (hwi : wi.file.isSome = true) :
    (ws.reopen fs).1 = (wi.reopen fs).1 ∧
    (ws.reopen fs).2.2 = (wi.reopen fs).2.2 ∧
    (ws.reopen fs).2.1.file = (wi.reopen fs).2.1.file := by
  rcases hfs : ws.file with _ | h1
  · rw [hfs] at hws
    exact absurd hws (by simp)
  rcases hfi : wi.file with _ | h2
  · rw [hfi] at hwi
    exact absurd hwi (by simp)
  unfold SameFileW.RotatableFileWriter.reopen InodeW.RotatableFileWriter.reopen
  rw [hfs, hfi]
  unfold SameFileW.openAndStat InodeW.openAndQueryInode
  simp only [hwsm, hwim]
  rcases hop : fs.openAppendCreate m with e | hfs2
  · simp [hop]
  · obtain ⟨hopen, hsb2, -, -, -, ⟨f, hf, hffid⟩, -⟩ :=
      Fs.openAppendCreate_ok fs m hfs2 hop
    rw [hsb] at hsb2
    have hst : hfs2.2.stat = .ok f.fid := Fs.stat_of_atPath hfs2.2 f hsb2 hf
    simp [hop, hst, InodeW.getCurrentInode]

/-- C10 (amended): the two variants are not behaviorally equivalent in
general (see the counterexample: after a failed reopen one panics where
the other succeeds); they do agree on any single `Write` issued from
corresponding consistent open states — same handle field, stored
identity matching the handle, matching modes — over a filesystem whose
stat is not hard-blocked, whose handle inode is nonzero, and on which
identity equality with the handle is decided by the inode alone: the
call then returns the same count and error and leaves the same
filesystem in both variants. -/
theorem variants_agree_on_single_write :
    ∀ (ws : SameFileW.RotatableFileWriter) (wi : InodeW.RotatableFileWriter)
      (fs : Fs) (h : OsFile) (p : List Nat),
      ws.file = some h → wi.file = some h →
      ws.fileInfo = some (some h.fid) → wi.inode = h.fid.ino →
      ws.mode = wi.mode → fs.statBlocked = false → h.fid.ino ≠ 0 →
      (fs.atPath.all fun f =>
        decide (f.fid = h.fid) == decide (f.fid.ino = h.fid.ino)) = true →
      SameFileW.writeObs ws fs p = some (InodeW.writeObs wi fs p) := by
  intro ws wi fs h p hfs hfi hinfo hino hmode hsb hnz hiff
  have hws : ws.file.isSome = true := by rw [hfs]; rfl
  have hwi : wi.file.isSome = true := by rw [hfi]; rfl
  obtain ⟨hre, hrfs, hrfile⟩ :=
    reopen_align ws wi fs wi.mode hsb hmode rfl hws hwi
  rcases hap : fs.atPath with _ | f
  · -- the path is empty: stat fails with notExist, both variants reopen
    have hstat : fs.stat = .error .notExist := by simp [Fs.stat, hsb, hap]
    have hchg : wi.hasInodeChanged fs = true := by
      simp [InodeW.RotatableFileWriter.hasInodeChanged, InodeW.getCurrentInode,
        hstat, hino, hnz]
    unfold SameFileW.writeObs InodeW.writeObs
      SameFileW.RotatableFileWriter.Write InodeW.RotatableFileWriter.Write
    simp only [hstat, hchg, if_true, reduceIte]
    unfold SameFileW.writeTail
    simp only [hinfo, SameFileW.sameFile, Bool.false_eq_true, if_false]
    rcases hre1 : (ws.reopen fs).1 with _ | e
    · have hre2 : (wi.reopen fs).1 = none := by rw [← hre, hre1]
      have hre2f : wi.reopen fs =
          (none, (wi.reopen fs).2.1, (wi.reopen fs).2.2) := by rw [← hre2]
      obtain ⟨hh, f2, hfile2, hinode2, -, -, -, -, -, hq2, -⟩ :=
        InodeW.reopen_ino_ok wi (wi.reopen fs).2.1 fs (wi.reopen fs).2.2 hre2f
      simp only [hre1, hre2, hq2, hrfs, hrfile, hfile2]
    · have hre2 : (wi.reopen fs).1 = some e := by rw [← hre, hre1]
      simp only [hre1, hre2, hrfs]
  · -- a file is at the path: the comparisons agree via the inode
    have hstat : fs.stat = .ok f.fid := Fs.stat_of_atPath fs f hsb hap
    have hiff2 : (f.fid = h.fid) ↔ (f.fid.ino = h.fid.ino) := by
      rw [hap] at hiff
      simpa [decide_eq_decide] using hiff
    by_cases hfe : f.fid = h.fid
    · -- same file: neither variant reopens; both write through the handle
      have hsame : SameFileW.sameFile (some h.fid) (some f.fid) = true := by
        simp [SameFileW.sameFile, hfe]
      have hchg : wi.hasInodeChanged fs = false := by
        simp [InodeW.RotatableFileWriter.hasInodeChanged, InodeW.getCurrentInode,
          hstat, hino, hiff2.mp hfe]
      unfold SameFileW.writeObs InodeW.writeObs
        SameFileW.RotatableFileWriter.Write InodeW.RotatableFileWriter.Write
      simp only [hstat, hchg, Bool.false_eq_true, if_false]
      unfold SameFileW.writeTail
      simp only [hinfo, hsame, if_true, hfs, hfi]
    · -- different file: both variants reopen, with aligned outcomes
      have hsame : SameFileW.sameFile (some h.fid) (some f.fid) = false := by
        simp [SameFileW.sameFile]
        exact fun hc => absurd hc.symm hfe
      have hchg : wi.hasInodeChanged fs = true := by
        simp [InodeW.RotatableFileWriter.hasInodeChanged, InodeW.getCurrentInode,
          hstat, hino]
        exact fun hc => hfe (hiff2.mpr hc.symm)
      unfold SameFileW.writeObs InodeW.writeObs
        SameFileW.RotatableFileWriter.Write InodeW.RotatableFileWriter.Write
      simp only [hstat, hchg, if_true, reduceIte]
      unfold SameFileW.writeTail
      simp only [hinfo, hsame, Bool.false_eq_true, if_false]
      rcases hre1 : (ws.reopen fs).1 with _ | e
      · have hre2 : (wi.reopen fs).1 = none := by rw [← hre, hre1]
        have hre2f : wi.reopen fs =
            (none, (wi.reopen fs).2.1, (wi.reopen fs).2.2) := by rw [← hre2]
        obtain ⟨hh, f2, hfile2, hinode2, -, -, -, -, -, hq2, -⟩ :=
          InodeW.reopen_ino_ok wi (wi.reopen fs).2.1 fs (wi.reopen fs).2.2 hre2f
        simp only [hre1, hre2, hq2, hrfs, hrfile, hfile2]
      · have hre2 : (wi.reopen fs).1 = some e := by rw [← hre, hre1]
        simp only [hre1, hre2, hrfs]

/-- C10 (witness): the single-write agreement evaluated on the
demonstration writers over the unrotated filesystem. -/
theorem variants_agree_on_single_write_witness :
    SameFileW.writeObs wDemo fsDemo [7] = some (InodeW.writeObs wDemoI fsDemo [7]) :=
  variants_agree_on_single_write wDemo wDemoI fsDemo ⟨⟨0, 1⟩, true⟩ [7]
    rfl rfl rfl rfl rfl (by decide) (by decide) (by decide)

/-- C10 (counterexample): the same call sequence — construct, `Reopen`
while opening is blocked, then `Write` after access is restored — makes
the `os.SameFile` variant panic where the inode variant returns a
successful two-byte write: the variants are not behaviorally
equivalent. -/
theorem variants_diverge_after_failed_reopen_cex :
    SameFileW.NewRotatableFileWriter 438 fsDemo = some (wDemo, fsDemo) ∧
    InodeW.NewRotatableFileWriter 438 fsDemo = some (wDemoI, fsDemo) ∧
    wDemo.reopen fsDemoOpenBlocked =
      (some .permission, ⟨none, none, 438⟩, fsDemoOpenBlocked) ∧
    wDemoI.reopen fsDemoOpenBlocked =
      (some .permission, ⟨none, 438, 0⟩, fsDemoOpenBlocked) ∧
    SameFileW.RotatableFileWriter.Write ⟨none, none, 438⟩ fsDemo [7, 8] = .panicked ∧
    InodeW.RotatableFileWriter.Write ⟨none, 438, 0⟩ fsDemo [7, 8] =
      ((2, none), ⟨some ⟨⟨0, 1⟩, true⟩, 438, 1⟩,
        ⟨some ⟨⟨0, 1⟩, true, [7, 8]⟩, [], false, false, 0, 2⟩) := by
  decide

end Rotate
